import Mathlib

/-!
Verification of the Mauboussin analyzer's data-aggregation core.

The JavaScript source is embedded shallowly:
* upstream payload fields are `JsVal` (a finite number, a numeric string, the
  Alpha Vantage "None" sentinel, `null`, `undefined`, the empty string, or a
  non-numeric string);
* JavaScript numbers are `JsNum` (an exact rational, `NaN`, `Infinity` or
  `-Infinity`); floating-point rounding is not modelled and negative zero is
  identified with zero, which is faithful for every property proved here;
* the retry loop and the parallel fetch step are modelled as pure functions
  over attempt-indexed outcome stubs.
-/

namespace Mauboussin

/-- A JavaScript value that can occupy a numeric field of a provider payload.
`num` is a finite JS number, `numStr` a numeric string carrying its parsed
value, `noneStr` the provider's "None" / unavailable sentinel, `badStr` a
non-numeric, non-empty string. -/
inductive JsVal where
  | num (q : ℚ)
  | numStr (q : ℚ)
  | noneStr
  | nullV
  | undef
  | emptyStr
  | badStr
deriving DecidableEq, Repr

/-- A JavaScript number: an exact finite rational, `NaN`, or a signed
infinity. -/
inductive JsNum where
  | fin (q : ℚ)
  | nan
  | inf
  | ninf
deriving DecidableEq, Repr

namespace JsNum

/-- JS truthiness of a number: `0` and `NaN` are falsy, everything else
truthy. -/
def truthy : JsNum → Bool
  | fin q => decide (q ≠ 0)
  | nan => false
  | inf => true
  | ninf => true

/-- JS addition on numbers. -/
def add : JsNum → JsNum → JsNum
  | fin a, fin b => fin (a + b)
  | fin _, inf => inf
  | fin _, ninf => ninf
  | inf, fin _ => inf
  | inf, inf => inf
  | inf, ninf => nan
  | ninf, fin _ => ninf
  | ninf, inf => nan
  | ninf, ninf => ninf
  | nan, _ => nan
  | _, nan => nan

/-- JS subtraction on numbers. -/
def sub : JsNum → JsNum → JsNum
  | fin a, fin b => fin (a - b)
  | fin _, inf => ninf
  | fin _, ninf => inf
  | inf, fin _ => inf
  | inf, inf => nan
  | inf, ninf => inf
  | ninf, fin _ => ninf
  | ninf, inf => ninf
  | ninf, ninf => nan
  | nan, _ => nan
  | _, nan => nan

/-- JS multiplication on numbers (`0 * ±Infinity = NaN`). -/
def mul : JsNum → JsNum → JsNum
  | fin a, fin b => fin (a * b)
  | fin a, inf => if a = 0 then nan else if 0 < a then inf else ninf
  | fin a, ninf => if a = 0 then nan else if 0 < a then ninf else inf
  | inf, fin b => if b = 0 then nan else if 0 < b then inf else ninf
  | ninf, fin b => if b = 0 then nan else if 0 < b then ninf else inf
  | inf, inf => inf
  | inf, ninf => ninf
  | ninf, inf => ninf
  | ninf, ninf => inf
  | nan, _ => nan
  | _, nan => nan

/-- JS division on numbers: `0/0 = NaN`, `a/0 = ±Infinity` for `a ≠ 0`
(negative zero is not modelled, so the sign follows the numerator). -/
def div : JsNum → JsNum → JsNum
  | fin a, fin b =>
      if b = 0 then (if a = 0 then nan else if 0 < a then inf else ninf)
      else fin (a / b)
  | fin _, inf => fin 0
  | fin _, ninf => fin 0
  | inf, fin b => if 0 ≤ b then inf else ninf
  | ninf, fin b => if 0 ≤ b then ninf else inf
  | inf, inf => nan
  | inf, ninf => nan
  | ninf, inf => nan
  | ninf, ninf => nan
  | nan, _ => nan
  | _, nan => nan

/-- `Math.abs`. -/
def abs : JsNum → JsNum
  | fin a => fin |a|
  | nan => nan
  | inf => inf
  | ninf => inf

end JsNum

/-- The JS `||` operator restricted to numbers: returns the left operand
unless it is falsy (`0` or `NaN`). -/
def jsOr (a b : JsNum) : JsNum := if a.truthy then a else b

/-- `x || null` on a number `x`: `null` (here `none`) exactly when `x` is
falsy (`0` or `NaN`). -/
def jsOrNull (a : JsNum) : Option JsNum := if a.truthy then some a else none

/-- Global `parseFloat` applied to a payload value: numbers and numeric
strings parse to their value; `"None"`, `null`, `undefined`, `""` and
non-numeric strings parse to `NaN`. -/
def parseFloat : JsVal → JsNum
  | .num q => .fin q
  | .numStr q => .fin q
  | .noneStr => .nan
  | .nullV => .nan
  | .undef => .nan
  | .emptyStr => .nan
  | .badStr => .nan

/-- Embeds the `parseNumber` helper of the analysis component: the four
sentinel values map to `0`, anything else to `parseFloat(value) || 0`. -/
def parseNumber (value : JsVal) : JsNum :=
  if value = .noneStr ∨ value = .nullV ∨ value = .undef ∨ value = .emptyStr then
    .fin 0
  else
    jsOr (parseFloat value) (.fin 0)

/-- Embeds `parseFinancialNumber` from `formatters.js`; its body is
identical to `parseNumber`. -/
def parseFinancialNumber (value : JsVal) : JsNum :=
  if value = .noneStr ∨ value = .nullV ∨ value = .undef ∨ value = .emptyStr then
    .fin 0
  else
    jsOr (parseFloat value) (.fin 0)

/-- The company-overview payload fields consumed by the market-data
assembly. `PERatioVal` / `PriceToBookRatioVal` mirror the upstream
`PERatio` / `PriceToBookRatio` keys; `week52High` / `week52Low` mirror
`52WeekHigh` / `52WeekLow`. -/
structure ProfilePayload where
  MarketCapitalization : JsVal
  Beta : JsVal
  PERatioVal : JsVal
  ForwardPE : JsVal
  PriceToBookRatioVal : JsVal
  week52High : JsVal
  week52Low : JsVal
  SharesOutstanding : JsVal
deriving DecidableEq, Repr

/-- The `marketData` object of the canonical financial model. Fields built
with `parseFloat(...) || null` are `Option JsNum` (with `none` for `null`). -/
structure MarketData where
  marketCap : JsNum
  beta : Option JsNum
  trailingPE : Option JsNum
  forwardPE : Option JsNum
  priceToBook : Option JsNum
  fiftyTwoWeekHigh : Option JsNum
  fiftyTwoWeekLow : Option JsNum
  sharesOutstanding : JsNum
deriving DecidableEq, Repr

/-- Assembly of `financialData.marketData` from the profile payload. -/
def mkMarketData (p : ProfilePayload) : MarketData where
  marketCap := parseFinancialNumber p.MarketCapitalization
  beta := jsOrNull (parseFloat p.Beta)
  trailingPE := jsOrNull (parseFloat p.PERatioVal)
  forwardPE := jsOrNull (parseFloat p.ForwardPE)
  priceToBook := jsOrNull (parseFloat p.PriceToBookRatioVal)
  fiftyTwoWeekHigh := jsOrNull (parseFloat p.week52High)
  fiftyTwoWeekLow := jsOrNull (parseFloat p.week52Low)
  sharesOutstanding := parseFinancialNumber p.SharesOutstanding

/-- The income-statement payload fields consumed by the model assembly.
`fiscalDateEnding` is modelled as a natural date code (such as YYYYMMDD);
larger means more recent. -/
structure IncomePayload where
  fiscalDateEnding : ℕ
  totalRevenue : JsVal
  costOfRevenue : JsVal
  grossProfit : JsVal
  operatingExpenses : JsVal
  operatingIncome : JsVal
  ebitda : JsVal
  ebit : JsVal
  interestExpense : JsVal
  incomeTaxExpense : JsVal
  netIncome : JsVal
  incomeBeforeTax : JsVal
deriving DecidableEq, Repr

/-- The `incomeStatement` object of the canonical financial model. -/
structure IncomeStatement where
  revenue : JsNum
  costOfRevenue : JsNum
  grossProfit : JsNum
  operatingExpenses : JsNum
  operatingIncome : JsNum
  ebitda : JsNum
  ebit : JsNum
  interestExpense : JsNum
  taxExpense : JsNum
  netIncome : JsNum
  taxRate : JsNum
deriving DecidableEq, Repr

/-- Assembly of `financialData.incomeStatement`: every field goes through
`parseNumber`; the effective tax rate divides tax expense by pre-tax income
unless the coerced pre-tax income is zero, in which case it falls back to
the fixed rate 0.21. -/
def mkIncomeStatement (income : IncomePayload) : IncomeStatement where
  revenue := parseNumber income.totalRevenue
  costOfRevenue := parseNumber income.costOfRevenue
  grossProfit := parseNumber income.grossProfit
  operatingExpenses := parseNumber income.operatingExpenses
  operatingIncome := parseNumber income.operatingIncome
  ebitda := parseNumber income.ebitda
  ebit := parseNumber income.ebit
  interestExpense := parseNumber income.interestExpense
  taxExpense := parseNumber income.incomeTaxExpense
  netIncome := parseNumber income.netIncome
  taxRate :=
    if parseNumber income.incomeBeforeTax ≠ JsNum.fin 0 then
      (parseNumber income.incomeTaxExpense).div (parseNumber income.incomeBeforeTax)
    else
      JsNum.fin (21 / 100)

/-- The balance-sheet payload fields consumed by the model assembly. -/
structure BalancePayload where
  fiscalDateEnding : ℕ
  totalAssets : JsVal
  totalCurrentAssets : JsVal
  cashAndCashEquivalentsAtCarryingValue : JsVal
  currentNetReceivables : JsVal
  inventory : JsVal
  propertyPlantEquipment : JsVal
  goodwill : JsVal
  intangibleAssets : JsVal
  totalLiabilities : JsVal
  totalCurrentLiabilities : JsVal
  currentAccountsPayable : JsVal
  shortTermDebt : JsVal
  shortLongTermDebtTotal : JsVal
  totalShareholderEquity : JsVal
deriving DecidableEq, Repr

/-- The `balanceSheet` object of the canonical financial model. -/
structure BalanceSheet where
  totalAssets : JsNum
  currentAssets : JsNum
  cash : JsNum
  accountsReceivable : JsNum
  inventory : JsNum
  ppe : JsNum
  goodwill : JsNum
  intangibleAssets : JsNum
  totalLiabilities : JsNum
  currentLiabilities : JsNum
  accountsPayable : JsNum
  shortTermDebt : JsNum
  longTermDebt : JsNum
  totalEquity : JsNum
deriving DecidableEq, Repr

/-- Assembly of `financialData.balanceSheet`; long-term debt is the combined
short-and-long-term debt total minus short-term debt, with no clamping. -/
def mkBalanceSheet (balance : BalancePayload) : BalanceSheet where
  totalAssets := parseNumber balance.totalAssets
  currentAssets := parseNumber balance.totalCurrentAssets
  cash := parseNumber balance.cashAndCashEquivalentsAtCarryingValue
  accountsReceivable := parseNumber balance.currentNetReceivables
  inventory := parseNumber balance.inventory
  ppe := parseNumber balance.propertyPlantEquipment
  goodwill := parseNumber balance.goodwill
  intangibleAssets := parseNumber balance.intangibleAssets
  totalLiabilities := parseNumber balance.totalLiabilities
  currentLiabilities := parseNumber balance.totalCurrentLiabilities
  accountsPayable := parseNumber balance.currentAccountsPayable
  shortTermDebt := parseNumber balance.shortTermDebt
  longTermDebt := (parseNumber balance.shortLongTermDebtTotal).sub (parseNumber balance.shortTermDebt)
  totalEquity := parseNumber balance.totalShareholderEquity

/-- The cash-flow payload fields consumed by the model assembly. -/
structure CashFlowPayload where
  fiscalDateEnding : ℕ
  operatingCashflow : JsVal
  capitalExpenditures : JsVal
deriving DecidableEq, Repr

/-- The `cashFlow` object of the canonical financial model. -/
structure CashFlowStmt where
  operatingCashFlow : JsNum
  capitalExpenditures : JsNum
  freeCashFlow : JsNum
deriving DecidableEq, Repr

/-- Assembly of `financialData.cashFlow`: capital expenditures are stored as
`Math.abs` of the coerced upstream figure, and free cash flow subtracts that
magnitude from operating cash flow. -/
def mkCashFlow (cashFlow : CashFlowPayload) : CashFlowStmt where
  operatingCashFlow := parseNumber cashFlow.operatingCashflow
  capitalExpenditures := (parseNumber cashFlow.capitalExpenditures).abs
  freeCashFlow :=
    (parseNumber cashFlow.operatingCashflow).sub ((parseNumber cashFlow.capitalExpenditures).abs)

/-- One entry of `historicalData.incomeStatements`: the per-year gross margin
divides the coerced gross profit by the coerced revenue with no guard. -/
structure HistIncomeYear where
  fiscalYear : ℕ
  revenue : JsNum
  operatingIncome : JsNum
  ebit : JsNum
  netIncome : JsNum
  grossMargin : JsNum
deriving DecidableEq, Repr

/-- Assembly of one `historicalData.incomeStatements` entry. -/
def mkHistIncomeYear (yr : IncomePayload) : HistIncomeYear where
  fiscalYear := yr.fiscalDateEnding
  revenue := parseNumber yr.totalRevenue
  operatingIncome := parseNumber yr.operatingIncome
  ebit := parseNumber yr.ebit
  netIncome := parseNumber yr.netIncome
  grossMargin := (parseNumber yr.grossProfit).div (parseNumber yr.totalRevenue)

/-- One entry of `historicalData.balanceSheets`. -/
structure HistBalanceYear where
  fiscalYear : ℕ
  totalAssets : JsNum
  totalEquity : JsNum
  totalDebt : JsNum
  ppe : JsNum
deriving DecidableEq, Repr

/-- Assembly of one `historicalData.balanceSheets` entry. -/
def mkHistBalanceYear (yr : BalancePayload) : HistBalanceYear where
  fiscalYear := yr.fiscalDateEnding
  totalAssets := parseNumber yr.totalAssets
  totalEquity := parseNumber yr.totalShareholderEquity
  totalDebt := parseNumber yr.shortLongTermDebtTotal
  ppe := parseNumber yr.propertyPlantEquipment

/-- One entry of `historicalData.cashFlows`. -/
structure HistCashFlowYear where
  fiscalYear : ℕ
  operatingCashFlow : JsNum
  capex : JsNum
  freeCashFlow : JsNum
deriving DecidableEq, Repr

/-- Assembly of one `historicalData.cashFlows` entry. -/
def mkHistCashFlowYear (yr : CashFlowPayload) : HistCashFlowYear where
  fiscalYear := yr.fiscalDateEnding
  operatingCashFlow := parseNumber yr.operatingCashflow
  capex := (parseNumber yr.capitalExpenditures).abs
  freeCashFlow := (parseNumber yr.operatingCashflow).sub ((parseNumber yr.capitalExpenditures).abs)

/-- `array.slice(0, Math.min(5, array.length))`, the truncation applied to
each of the three historical arrays. -/
def sliceHistory {α : Type} (l : List α) : List α := l.take (min 5 l.length)

/-- The `historicalData` object of the canonical financial model. -/
structure HistoricalData where
  yearsAvailable : ℕ
  incomeStatements : List HistIncomeYear
  balanceSheets : List HistBalanceYear
  cashFlows : List HistCashFlowYear
deriving DecidableEq, Repr

/-- Assembly of `financialData.historicalData` from the (most-recent-first)
upstream statement arrays: each array is truncated with `sliceHistory` and
mapped through its per-year assembly; `yearsAvailable` is the length of the
truncated income history. -/
def mkHistoricalData (incomeData : List IncomePayload) (balanceData : List BalancePayload)
    (cashFlowData : List CashFlowPayload) : HistoricalData where
  yearsAvailable := (sliceHistory incomeData).length
  incomeStatements := (sliceHistory incomeData).map mkHistIncomeYear
  balanceSheets := (sliceHistory balanceData).map mkHistBalanceYear
  cashFlows := (sliceHistory cashFlowData).map mkHistCashFlowYear

/-- One attempt's outcome from a fetch stub: an HTTP response carrying its
status code, or a network-level failure carrying its error message. -/
inductive FetchOutcome where
  | resp (status : ℕ)
  | netErr (msg : String)
deriving DecidableEq, Repr

deriving instance DecidableEq for Except

/-- The observable behaviour of one `fetchWithRetry` call: how many fetch
attempts ran, the backoff delays slept (milliseconds, in order), and the
outcome — the returned response's status, or the thrown error message. -/
structure RetryTrace where
  attempts : ℕ
  delays : List ℕ
  result : Except String ℕ
deriving DecidableEq, Repr

/-- The default `maxRetries` of `fetchWithRetry`. -/
def maxRetriesDefault : ℕ := 3

/-- The loop body of `fetchWithRetry`. The JS loop runs `i` from `0` while
`i < maxRetries`; here `remaining = maxRetries - i` is the structural fuel,
so the loop guard is `remaining > 0` and the JS sleep guard `i < maxRetries - 1`
in the catch branch is `0 < remaining` for the tail call's fuel. A 429
response sleeps `2^i · 1000` ms and retries; any other response is returned
immediately; a network error records its message, sleeps unless this was the
last attempt, and retries. After the loop the recorded error (or
"Max retries exceeded") is thrown. -/
def fetchWithRetryGo (stub : ℕ → FetchOutcome) :
    ℕ → ℕ → Option String → List ℕ → ℕ → RetryTrace
  | 0, _, lastError, delays, attempts =>
      { attempts := attempts, delays := delays,
        result := .error (lastError.getD "Max retries exceeded") }
  | remaining + 1, i, lastError, delays, attempts =>
      match stub i with
      | .resp status =>
          if status = 429 then
            fetchWithRetryGo stub remaining (i + 1) lastError
              (delays ++ [2 ^ i * 1000]) (attempts + 1)
          else
            { attempts := attempts + 1, delays := delays, result := .ok status }
      | .netErr msg =>
          fetchWithRetryGo stub remaining (i + 1) (some msg)
            (if 0 < remaining then delays ++ [2 ^ i * 1000] else delays) (attempts + 1)

/-- `fetchWithRetry(url, options, maxRetries)` against an attempt-indexed
outcome stub. -/
def fetchWithRetry (stub : ℕ → FetchOutcome) (maxRetries : ℕ) : RetryTrace :=
  fetchWithRetryGo stub maxRetries 0 none [] 0

/-- A fetch stub that always signals HTTP 429 rate limiting. -/
def always429 : ℕ → FetchOutcome := fun _ => .resp 429

/-- A fetch stub that always succeeds with HTTP 200. -/
def always200 : ℕ → FetchOutcome := fun _ => .resp 200

/-- A fetch stub whose every attempt is a network-level failure. -/
def alwaysNetErr : ℕ → FetchOutcome := fun _ => .netErr "network down"

/-- JS `Response.ok`: status in [200, 299]. -/
def responseOk (status : ℕ) : Bool := decide (200 ≤ status ∧ status ≤ 299)

/-- What the fetch step of a successful analysis knows afterwards: whether
each OPTIONAL source (Yahoo quote, earnings) responded HTTP-ok; an
unavailable optional source leaves its derived data null downstream. -/
structure FetchPhase where
  yahooAvailable : Bool
  earningsAvailable : Bool
deriving DecidableEq, Repr

/-- The parallel fetch step of `analyzeCompany`: `Promise.all` over six
`fetchWithRetry` calls (profile, income statement, balance sheet, cash flow,
Yahoo quote, earnings). A rejection of ANY of the six — a fetch that threw
after exhausting its retries — rejects the whole `Promise.all` and lands in
the top-level catch, aborting the analysis. Otherwise the four REQUIRED
responses must be HTTP-ok (each with its specific error message), while the
two OPTIONAL responses only set availability flags. -/
def analyzeFetchPhase (profileStub incomeStub balanceStub cashFlowStub yahooStub
    earningsStub : ℕ → FetchOutcome) : Except String FetchPhase :=
  match (fetchWithRetry profileStub maxRetriesDefault).result,
        (fetchWithRetry incomeStub maxRetriesDefault).result,
        (fetchWithRetry balanceStub maxRetriesDefault).result,
        (fetchWithRetry cashFlowStub maxRetriesDefault).result,
        (fetchWithRetry yahooStub maxRetriesDefault).result,
        (fetchWithRetry earningsStub maxRetriesDefault).result with
  | .ok profileStatus, .ok incomeStatus, .ok balanceStatus, .ok cashFlowStatus,
      .ok yahooStatus, .ok earningsStatus =>
      if ¬ responseOk profileStatus then
        .error "Failed to fetch company profile. Check ticker symbol."
      else if ¬ responseOk incomeStatus then
        .error "Failed to fetch income statement"
      else if ¬ responseOk balanceStatus then
        .error "Failed to fetch balance sheet"
      else if ¬ responseOk cashFlowStatus then
        .error "Failed to fetch cash flow statement"
      else
        .ok { yahooAvailable := responseOk yahooStatus,
              earningsAvailable := responseOk earningsStatus }
  | .error e, _, _, _, _, _ => .error e
  | _, .error e, _, _, _, _ => .error e
  | _, _, .error e, _, _, _ => .error e
  | _, _, _, .error e, _, _ => .error e
  | _, _, _, _, .error e, _ => .error e
  | _, _, _, _, _, .error e => .error e

/-- The risk-free rate hard-coded in the analyze endpoint's CAPM section. -/
def riskFreeRate : ℚ := 45 / 1000

/-- The equity risk premium hard-coded in the analyze endpoint's CAPM
section. -/
def marketRiskPremium : ℚ := 8 / 100

/-- The CAPM cost-of-equity computation of the analyze endpoint: computed
(and the WACC section emitted) only when `marketData.beta` is truthy —
`null`, `0` and `NaN` all count as absent — otherwise the field is omitted. -/
def costOfEquityCAPM (beta : Option JsNum) : Option JsNum :=
  match beta with
  | some b =>
      if b.truthy then
        some ((JsNum.fin riskFreeRate).add (b.mul (JsNum.fin marketRiskPremium)))
      else
        none
  | none => none

/-- The example income statement from the spec scenario: tax expense 15,000
and pre-tax income 115,000 (values in millions); the remaining fields are
absent upstream. -/
def exampleIncome : IncomePayload where
  fiscalDateEnding := 20240930
  totalRevenue := .num 385706
  costOfRevenue := .nullV
  grossProfit := .nullV
  operatingExpenses := .nullV
  operatingIncome := .nullV
  ebitda := .nullV
  ebit := .num 123456
  interestExpense := .nullV
  incomeTaxExpense := .num 15000
  netIncome := .nullV
  incomeBeforeTax := .num 115000

/-- An income payload whose coerced pre-tax income is zero (the upstream
field is the "None" sentinel), triggering the 0.21 fallback. -/
def zeroPreTaxIncome : IncomePayload where
  fiscalDateEnding := 20240930
  totalRevenue := .nullV
  costOfRevenue := .nullV
  grossProfit := .nullV
  operatingExpenses := .nullV
  operatingIncome := .nullV
  ebitda := .nullV
  ebit := .nullV
  interestExpense := .nullV
  incomeTaxExpense := .num 15000
  netIncome := .nullV
  incomeBeforeTax := .noneStr

/-- A balance sheet whose combined debt total (100) is below its short-term
debt (250). -/
def invertedDebtBalance : BalancePayload where
  fiscalDateEnding := 20240930
  totalAssets := .nullV
  totalCurrentAssets := .nullV
  cashAndCashEquivalentsAtCarryingValue := .nullV
  currentNetReceivables := .nullV
  inventory := .nullV
  propertyPlantEquipment := .nullV
  goodwill := .nullV
  intangibleAssets := .nullV
  totalLiabilities := .nullV
  totalCurrentLiabilities := .nullV
  currentAccountsPayable := .nullV
  shortTermDebt := .num 250
  shortLongTermDebtTotal := .num 100
  totalShareholderEquity := .nullV

/-- A historical income year whose revenue and gross profit are both the
"None" sentinel: both coerce to 0 and the gross margin becomes 0/0. -/
def zeroRevenueYear : IncomePayload where
  fiscalDateEnding := 20201231
  totalRevenue := .noneStr
  costOfRevenue := .nullV
  grossProfit := .noneStr
  operatingExpenses := .nullV
  operatingIncome := .nullV
  ebitda := .nullV
  ebit := .nullV
  interestExpense := .nullV
  incomeTaxExpense := .nullV
  netIncome := .nullV
  incomeBeforeTax := .nullV

/-- A historical income year with positive gross profit but "None" revenue:
the gross margin becomes a positive number divided by 0. -/
def zeroRevenuePosProfitYear : IncomePayload where
  fiscalDateEnding := 20201231
  totalRevenue := .noneStr
  costOfRevenue := .nullV
  grossProfit := .num 10
  operatingExpenses := .nullV
  operatingIncome := .nullV
  ebitda := .nullV
  ebit := .nullV
  interestExpense := .nullV
  incomeTaxExpense := .nullV
  netIncome := .nullV
  incomeBeforeTax := .nullV

/-- A profile payload whose upstream beta is the number 2; every other field
is absent. -/
def betaTwoProfile : ProfilePayload where
  MarketCapitalization := .nullV
  Beta := .num 2
  PERatioVal := .nullV
  ForwardPE := .nullV
  PriceToBookRatioVal := .nullV
  week52High := .nullV
  week52Low := .nullV
  SharesOutstanding := .nullV

/-- A minimal income year carrying only a fiscal date, for history-shape
tests. -/
def histYear (d : ℕ) : IncomePayload where
  fiscalDateEnding := d
  totalRevenue := .num 100
  costOfRevenue := .nullV
  grossProfit := .num 40
  operatingExpenses := .nullV
  operatingIncome := .nullV
  ebitda := .nullV
  ebit := .nullV
  interestExpense := .nullV
  incomeTaxExpense := .nullV
  netIncome := .nullV
  incomeBeforeTax := .nullV

/-- Seven upstream income years, most recent (2024) first. -/
def sevenYears : List IncomePayload :=
  [histYear 2024, histYear 2023, histYear 2022, histYear 2021, histYear 2020,
   histYear 2019, histYear 2018]

/-- Three upstream income years, most recent first. -/
def threeYears : List IncomePayload :=
  [histYear 2024, histYear 2023, histYear 2022]

/-- `parseNumber` always yields a finite number. -/
theorem parseNumber_fin (v : JsVal) : ∃ q : ℚ, parseNumber v = .fin q := by
  cases v <;> simp [parseNumber, parseFloat, jsOr, JsNum.truthy]
  case num q => by_cases h : q = 0 <;> simp [h]
  case numStr q => by_cases h : q = 0 <;> simp [h]

/-- `parseFinancialNumber` always yields a finite number. -/
theorem parseFinancialNumber_fin (v : JsVal) :
    ∃ q : ℚ, parseFinancialNumber v = .fin q := by
  cases v <;> simp [parseFinancialNumber, parseFloat, jsOr, JsNum.truthy]
  case num q => by_cases h : q = 0 <;> simp [h]
  case numStr q => by_cases h : q = 0 <;> simp [h]

/-- `parseFloat(v) || null` is `null` or a finite nonzero number. -/
theorem jsOrNull_parseFloat (v : JsVal) :
    jsOrNull (parseFloat v) = none ∨
      ∃ q : ℚ, q ≠ 0 ∧ jsOrNull (parseFloat v) = some (.fin q) := by
  cases v <;> simp [parseFloat, jsOrNull, JsNum.truthy]
  case num q =>
    by_cases h : q = 0 <;> simp [h]
  case numStr q =>
    by_cases h : q = 0 <;> simp [h]

/-- The slice bound `Math.min(5, length)` is redundant: the truncation is
`take 5`. -/
theorem sliceHistory_eq_take {α : Type} (l : List α) : sliceHistory l = l.take 5 := by
  rcases le_total 5 l.length with h | h
  · simp [sliceHistory, min_eq_left h]
  · simp [sliceHistory, min_eq_right h, List.take_of_length_le h,
      List.take_of_length_le (le_trans h (le_refl _))]

/-- C1: for every input in {valid number, numeric string, "None" sentinel,
null, undefined, empty string, non-numeric string}, the statement-field
coercion `parseNumber` returns a finite number (never NaN or undefined), and
the market-field coercions behind every field of `mkMarketData` (market
capitalization, beta, trailing/forward P/E, price-to-book, 52-week high/low,
shares outstanding) return either a finite number or the explicit `null`
("unknown") marker `none`, which is distinct from zero: known ratio fields
are even provably nonzero. -/
theorem coercion_totality (v : JsVal) (p : ProfilePayload) :
    (∃ q : ℚ, parseNumber v = .fin q) ∧
    (∃ q : ℚ, (mkMarketData p).marketCap = .fin q) ∧
    (∃ q : ℚ, (mkMarketData p).sharesOutstanding = .fin q) ∧
    ((mkMarketData p).beta = none ∨
      ∃ q : ℚ, q ≠ 0 ∧ (mkMarketData p).beta = some (.fin q)) ∧
    ((mkMarketData p).trailingPE = none ∨
      ∃ q : ℚ, q ≠ 0 ∧ (mkMarketData p).trailingPE = some (.fin q)) ∧
    ((mkMarketData p).forwardPE = none ∨
      ∃ q : ℚ, q ≠ 0 ∧ (mkMarketData p).forwardPE = some (.fin q)) ∧
    ((mkMarketData p).priceToBook = none ∨
      ∃ q : ℚ, q ≠ 0 ∧ (mkMarketData p).priceToBook = some (.fin q)) ∧
    ((mkMarketData p).fiftyTwoWeekHigh = none ∨
      ∃ q : ℚ, q ≠ 0 ∧ (mkMarketData p).fiftyTwoWeekHigh = some (.fin q)) ∧
    ((mkMarketData p).fiftyTwoWeekLow = none ∨
      ∃ q : ℚ, q ≠ 0 ∧ (mkMarketData p).fiftyTwoWeekLow = some (.fin q)) :=
  ⟨parseNumber_fin v,
   parseFinancialNumber_fin p.MarketCapitalization,
   parseFinancialNumber_fin p.SharesOutstanding,
   jsOrNull_parseFloat p.Beta,
   jsOrNull_parseFloat p.PERatioVal,
   jsOrNull_parseFloat p.ForwardPE,
   jsOrNull_parseFloat p.PriceToBookRatioVal,
   jsOrNull_parseFloat p.week52High,
   jsOrNull_parseFloat p.week52Low⟩

/-- C5: the effective tax rate equals tax expense divided by pre-tax income
whenever the coerced pre-tax income is nonzero, equals the fixed fallback
0.21 when it is zero, and is always a finite number (never NaN or
undefined); on the spec's example (tax expense 15,000, pre-tax income
115,000) it is 15,000/115,000 = 3/23 ≈ 13.04%. -/
theorem taxRate_division_with_fallback (income : IncomePayload) :
    (∀ t pre : ℚ, parseNumber income.incomeTaxExpense = .fin t →
        parseNumber income.incomeBeforeTax = .fin pre → pre ≠ 0 →
        (mkIncomeStatement income).taxRate = .fin (t / pre)) ∧
    (parseNumber income.incomeBeforeTax = .fin 0 →
        (mkIncomeStatement income).taxRate = .fin (21 / 100)) ∧
    (∃ q : ℚ, (mkIncomeStatement income).taxRate = .fin q) ∧
    ((mkIncomeStatement exampleIncome).taxRate = .fin (15000 / 115000) ∧
      (15000 : ℚ) / 115000 = 3 / 23 ∧ |(3 : ℚ) / 23 - 1304 / 10000| < 1 / 10000) := by
  refine ⟨?_, ?_, ?_, ?_, ?_, ?_⟩
  · intro t pre ht hpre hne
    simp only [mkIncomeStatement, ht, hpre]
    have : JsNum.fin pre ≠ JsNum.fin 0 := by simpa using hne
    simp [this, JsNum.div, hne]
  · intro h0
    simp [mkIncomeStatement, h0]
  · obtain ⟨t, ht⟩ := parseNumber_fin income.incomeTaxExpense
    obtain ⟨pre, hpre⟩ := parseNumber_fin income.incomeBeforeTax
    by_cases hne : pre = 0
    · subst hne
      exact ⟨21 / 100, by simp [mkIncomeStatement, hpre]⟩
    · refine ⟨t / pre, ?_⟩
      have : JsNum.fin pre ≠ JsNum.fin 0 := by simpa using hne
      simp [mkIncomeStatement, ht, hpre, this, JsNum.div, hne]
  · show (mkIncomeStatement exampleIncome).taxRate = .fin (15000 / 115000)
    have ht : parseNumber exampleIncome.incomeTaxExpense = JsNum.fin 15000 := rfl
    have hpre : parseNumber exampleIncome.incomeBeforeTax = JsNum.fin 115000 := rfl
    norm_num [mkIncomeStatement, ht, hpre, JsNum.div]
  · norm_num
  · rw [abs_sub_lt_iff]
    constructor <;> norm_num

/-- Witness for C5: both branches exercised on concrete payloads. -/
theorem taxRate_division_with_fallback_witness :
    (mkIncomeStatement exampleIncome).taxRate = .fin (15000 / 115000) ∧
    (mkIncomeStatement zeroPreTaxIncome).taxRate = .fin (21 / 100) :=
  ⟨(taxRate_division_with_fallback exampleIncome).1 15000 115000 rfl rfl (by norm_num),
   (taxRate_division_with_fallback zeroPreTaxIncome).2.1 rfl⟩

/-- C9: for every upstream cash-flow payload, the normalized capital
expenditure is a non-negative finite magnitude and free cash flow equals
operating cash flow minus that magnitude. -/
theorem capex_magnitude_and_fcf (cashFlow : CashFlowPayload) :
    ∃ ocf capex : ℚ, 0 ≤ capex ∧
      (mkCashFlow cashFlow).operatingCashFlow = .fin ocf ∧
      (mkCashFlow cashFlow).capitalExpenditures = .fin capex ∧
      (mkCashFlow cashFlow).freeCashFlow = .fin (ocf - capex) := by
  obtain ⟨ocf, hocf⟩ := parseNumber_fin cashFlow.operatingCashflow
  obtain ⟨c, hc⟩ := parseNumber_fin cashFlow.capitalExpenditures
  exact ⟨ocf, |c|, abs_nonneg c, by simp [mkCashFlow, hocf],
    by simp [mkCashFlow, hc, JsNum.abs], by simp [mkCashFlow, hocf, hc, JsNum.abs, JsNum.sub]⟩

/-- C10: canonical long-term debt is the provider's combined debt total
minus short-term debt, and whenever the coerced combined total is smaller
than the coerced short-term debt the result is negative — no clamping to
zero. -/
theorem longTermDebt_difference_unclamped (balance : BalancePayload) :
    (mkBalanceSheet balance).longTermDebt =
      (parseNumber balance.shortLongTermDebtTotal).sub (parseNumber balance.shortTermDebt) ∧
    ∀ tot std : ℚ, parseNumber balance.shortLongTermDebtTotal = .fin tot →
      parseNumber balance.shortTermDebt = .fin std → tot < std →
      ∃ ltd : ℚ, (mkBalanceSheet balance).longTermDebt = .fin ltd ∧ ltd < 0 := by
  refine ⟨rfl, ?_⟩
  intro tot std htot hstd hlt
  refine ⟨tot - std, ?_, by linarith⟩
  simp [mkBalanceSheet, htot, hstd, JsNum.sub]

/-- Witness for C10: with combined total 100 and short-term debt 250 the
canonical long-term debt is negative. -/
theorem longTermDebt_difference_unclamped_witness :
    ∃ ltd : ℚ, (mkBalanceSheet invertedDebtBalance).longTermDebt = .fin ltd ∧ ltd < 0 :=
  (longTermDebt_difference_unclamped invertedDebtBalance).2 100 250 rfl rfl (by norm_num)

/-- C4 (code bug, evaluation at the failing input): the per-year gross
margin of the assembled historical model is NaN when a year's revenue and
gross profit both coerce to zero, and Infinity when only the revenue does —
the division in `mkHistIncomeYear` has no zero guard, unlike the tax-rate
computation of `mkIncomeStatement`. -/
theorem grossMargin_not_finite_on_zero_revenue :
    (mkHistIncomeYear zeroRevenueYear).grossMargin = .nan ∧
    (mkHistIncomeYear zeroRevenuePosProfitYear).grossMargin = .inf := by
  decide

/-- Exact trace of the retry loop against the always-rate-limited stub:
every attempt hits 429, sleeps its backoff, and the loop ends in the
"Max retries exceeded" error. -/
theorem fetchWithRetryGo_always429 (m : ℕ) :
    ∀ (i : ℕ) (delays : List ℕ) (attempts : ℕ),
      fetchWithRetryGo always429 m i none delays attempts =
        { attempts := attempts + m,
          delays := delays ++ (List.range' i m).map (fun j => 2 ^ j * 1000),
          result := .error "Max retries exceeded" } := by
  induction m with
  | zero => intro i delays attempts; simp [fetchWithRetryGo]
  | succ m ih =>
      intro i delays attempts
      rw [fetchWithRetryGo]
      show fetchWithRetryGo always429 m (i + 1) none (delays ++ [2 ^ i * 1000])
          (attempts + 1) = _
      rw [ih]
      simp only [RetryTrace.mk.injEq]
      refine ⟨by omega, ?_, trivial⟩
      rw [List.range'_succ, List.map_cons]
      simp [List.append_assoc]

/-- For any stub, the retry loop makes at most `attempts + fuel` attempts. -/
theorem fetchWithRetryGo_attempts_le (stub : ℕ → FetchOutcome) (m : ℕ) :
    ∀ (i : ℕ) (lastError : Option String) (delays : List ℕ) (attempts : ℕ),
      (fetchWithRetryGo stub m i lastError delays attempts).attempts ≤ attempts + m := by
  induction m with
  | zero => intro i lastError delays attempts; simp [fetchWithRetryGo]
  | succ m ih =>
      intro i lastError delays attempts
      rw [fetchWithRetryGo]
      cases h : stub i with
      | resp status =>
          by_cases h429 : status = 429
          · simp only [h429, if_pos rfl]
            exact le_trans (ih (i + 1) lastError (delays ++ [2 ^ i * 1000]) (attempts + 1))
              (by omega)
          · simp only [if_neg h429]
            omega
      | netErr msg =>
          exact le_trans
            (ih (i + 1) (some msg)
              (if 0 < m then delays ++ [2 ^ i * 1000] else delays) (attempts + 1))
            (by omega)

/-- If some attempt returns a non-429 response, the loop returns it at once. -/
theorem fetchWithRetryGo_resp (stub : ℕ → FetchOutcome) (m i : ℕ)
    (lastError : Option String) (delays : List ℕ) (attempts : ℕ) (s : ℕ)
    (hs : stub i = .resp s) (h429 : s ≠ 429) :
    fetchWithRetryGo stub (m + 1) i lastError delays attempts =
      { attempts := attempts + 1, delays := delays, result := .ok s } := by
  rw [fetchWithRetryGo, hs]
  simp [h429]

/-- C6: against a stub that always signals HTTP 429, `fetchWithRetry` with
the default bound performs exactly 3 attempts with backoff delays 1000,
2000, 4000 ms and then fails; for every bound `n` it performs exactly `n`
attempts with delays 2^i·1000 ms, i < n; and against any stub whatsoever it
never performs an attempt beyond the bound. -/
theorem fetchWithRetry_rate_limited_bound :
    fetchWithRetry always429 maxRetriesDefault =
      { attempts := 3, delays := [1000, 2000, 4000],
        result := .error "Max retries exceeded" } ∧
    (∀ n : ℕ, fetchWithRetry always429 n =
      { attempts := n, delays := (List.range n).map (fun i => 2 ^ i * 1000),
        result := .error "Max retries exceeded" }) ∧
    (∀ stub : ℕ → FetchOutcome, ∀ n : ℕ, (fetchWithRetry stub n).attempts ≤ n) := by
  refine ⟨by decide, ?_, ?_⟩
  · intro n
    have h := fetchWithRetryGo_always429 n 0 [] 0
    simpa [fetchWithRetry, List.range_eq_range'] using h
  · intro stub n
    simpa using fetchWithRetryGo_attempts_le stub n 0 none [] 0

/-- C2 counterexample: all four REQUIRED fetches succeed with HTTP 200 while
the OPTIONAL Yahoo fetch fails after exhausting its retries (a network
error on every attempt); the `Promise.all` rejection aborts the whole
analysis instead of producing a result with the optional fields
unavailable. -/
theorem optional_retry_exhaustion_aborts :
    analyzeFetchPhase always200 always200 always200 always200 alwaysNetErr always200 =
      .error "network down" := by
  decide

/-- C2 amended: if the OPTIONAL fetch completes with a non-ok, non-429 HTTP
response (such as 404 or 500), the analysis does proceed successfully with
that source marked unavailable; only an optional fetch that throws after
exhausting its retries aborts the analysis (see the counterexample). -/
theorem optional_http_error_tolerated (s : ℕ) (h429 : s ≠ 429)
    (hok : responseOk s = false) :
    analyzeFetchPhase always200 always200 always200 always200
        (fun _ => FetchOutcome.resp s) always200 =
      .ok { yahooAvailable := false, earningsAvailable := true } := by
  have h200 : (fetchWithRetry always200 maxRetriesDefault).result = Except.ok 200 := rfl
  have hresp : (fetchWithRetry (fun _ => FetchOutcome.resp s) maxRetriesDefault).result =
      Except.ok s := by
    show (fetchWithRetryGo (fun _ => FetchOutcome.resp s) (2 + 1) 0 none [] 0).result = _
    rw [fetchWithRetryGo_resp (fun _ => FetchOutcome.resp s) 2 0 none [] 0 s rfl h429]
  have h200ok : responseOk 200 = true := by decide
  simp [analyzeFetchPhase, h200, hresp, h200ok, hok]

/-- Witness for C2's amended statement: a Yahoo fetch answering HTTP 500 is
tolerated. -/
theorem optional_http_error_tolerated_witness :
    analyzeFetchPhase always200 always200 always200 always200
        (fun _ => FetchOutcome.resp 500) always200 =
      .ok { yahooAvailable := false, earningsAvailable := true } :=
  optional_http_error_tolerated 500 (by decide) (by decide)

/-- C7: with the upstream history ordered most recent first, more than 5
years are truncated to exactly the 5 most recent, still in descending date
order — every retained year is at least as recent as every dropped one;
with fewer than 5 years all are retained; and `yearsAvailable` equals the
number of years retained. -/
theorem historical_truncation (incomeData : List IncomePayload)
    (balanceData : List BalancePayload) (cashFlowData : List CashFlowPayload)
    (hsorted : incomeData.Sorted (fun a b => b.fiscalDateEnding ≤ a.fiscalDateEnding)) :
    (5 ≤ incomeData.length →
      (mkHistoricalData incomeData balanceData cashFlowData).incomeStatements.length = 5) ∧
    (incomeData.length < 5 →
      (mkHistoricalData incomeData balanceData cashFlowData).incomeStatements =
        incomeData.map mkHistIncomeYear) ∧
    (mkHistoricalData incomeData balanceData cashFlowData).yearsAvailable =
      (mkHistoricalData incomeData balanceData cashFlowData).incomeStatements.length ∧
    (mkHistoricalData incomeData balanceData cashFlowData).incomeStatements.Sorted
      (fun a b => b.fiscalYear ≤ a.fiscalYear) ∧
    (∀ x ∈ sliceHistory incomeData, ∀ y ∈ incomeData.drop 5,
      y.fiscalDateEnding ≤ x.fiscalDateEnding) := by
  refine ⟨?_, ?_, ?_, ?_, ?_⟩
  · intro h5
    simp [mkHistoricalData, sliceHistory_eq_take, List.length_take, min_eq_left h5]
  · intro h5
    simp [mkHistoricalData, sliceHistory_eq_take, List.take_of_length_le (le_of_lt h5)]
  · simp [mkHistoricalData]
  · have hsub : (incomeData.take 5).Sublist incomeData := List.take_sublist 5 incomeData
    have hp : (incomeData.take 5).Pairwise
        (fun a b => b.fiscalDateEnding ≤ a.fiscalDateEnding) :=
      List.Pairwise.sublist hsub hsorted
    simp only [mkHistoricalData, sliceHistory_eq_take, List.Sorted, List.pairwise_map]
    exact hp
  · intro x hx y hy
    have h := hsorted
    rw [← List.take_append_drop 5 incomeData] at h
    rw [sliceHistory_eq_take] at hx
    exact (List.pairwise_append.mp h).2.2 x hx y hy

/-- Witness for C7: seven upstream years keep exactly 5 (and report 5
available); three upstream years are kept whole. -/
theorem historical_truncation_witness :
    (mkHistoricalData sevenYears [] []).incomeStatements.length = 5 ∧
    (mkHistoricalData sevenYears [] []).yearsAvailable = 5 ∧
    (mkHistoricalData threeYears [] []).incomeStatements =
      threeYears.map mkHistIncomeYear := by
  have h7 := historical_truncation sevenYears [] [] (by decide)
  have h3 := historical_truncation threeYears [] [] (by decide)
  refine ⟨h7.1 (by decide), ?_, h3.2.1 (by decide)⟩
  rw [h7.2.2.1, h7.1 (by decide)]

/-- C8: the CAPM cost of equity is exactly 0.045 + beta × 0.08 whenever the
canonical beta is known (the coercion only ever stores finite nonzero
values), and for every profile whose beta the code treats as absent — the
`null` marker, produced for missing, sentinel, non-numeric and zero
upstream betas alike — the cost-of-equity field is omitted rather than
silently defaulted. -/
theorem capm_cost_of_equity (p : ProfilePayload) :
    ((mkMarketData p).beta = none → costOfEquityCAPM (mkMarketData p).beta = none) ∧
    (∀ q : ℚ, (mkMarketData p).beta = some (.fin q) →
      q ≠ 0 ∧
        costOfEquityCAPM (mkMarketData p).beta =
          some (.fin (45 / 1000 + q * (8 / 100)))) := by
  constructor
  · intro h
    rw [h]
    rfl
  · intro q hq
    have hbeta : (mkMarketData p).beta = jsOrNull (parseFloat p.Beta) := rfl
    rw [hbeta] at hq ⊢
    rcases jsOrNull_parseFloat p.Beta with hnone | ⟨r, hr0, hr⟩
    · rw [hnone] at hq
      cases hq
    · have hrq : JsNum.fin r = JsNum.fin q := by
        have := hr.symm.trans hq
        injection this
      have hq0 : q ≠ 0 := by
        injection hrq with h1
        exact h1 ▸ hr0
      refine ⟨hq0, ?_⟩
      rw [hr, hrq]
      simp [costOfEquityCAPM, JsNum.truthy, hq0, JsNum.add, JsNum.mul,
        riskFreeRate, marketRiskPremium]

/-- Witness for C8: upstream beta 2 yields cost of equity
0.045 + 2 × 0.08. -/
theorem capm_cost_of_equity_witness :
    (2 : ℚ) ≠ 0 ∧
      costOfEquityCAPM (mkMarketData betaTwoProfile).beta =
        some (.fin (45 / 1000 + 2 * (8 / 100))) :=
  (capm_cost_of_equity betaTwoProfile).2 2 rfl

end Mauboussin
